import Mathlib

/-!
Shallow embedding of `pyrule_compendium/__init__.py` (class `compendium`).

The repository is a thin client over two HTTP endpoints (a primary
compendium API and an optional "master mode" API).  The HTTP layer
(`api.request`, `api_req`) lives outside `src/`; following the spec's
contract for it ("GET to base_url + path, returns parsed JSON or an
empty/falsy result"), we abstract the remote side as a `Net` record of
response functions, and each facade method returns its result together
with the trace of requests it issued, so that "queries endpoint X
first/never" statements are expressible.

Python specifics kept by the embedding:
  * an entry response is a dict; `not res` is emptiness of that dict,
    modelled as `List (String × String)` emptiness;
  * `master_mode` arguments are tri-state (`None`/`True`/`False`),
    modelled as `Option Bool`;
  * `self.master_api` exists only when the instance was constructed with
    `master_mode=True` (line 26); touching it otherwise is an
    `AttributeError`, modelled as `Err.attributeError "master_api"`;
  * a Python function body that falls through returns `None`; methods
    whose branches can fall through return an `Option` result;
  * `if not timeout: timeout = self.default_timeout` treats `0` and
    `None` as falsy.
-/

/-- An entry's metadata dict as returned by `GET {base}/entry/{id}`. -/
abbrev EntryData := List (String × String)

/-- The nested-by-category dump returned by `GET {base}` on the primary
endpoint (`api_req(self.api.base_url)`). -/
structure Dump where
  creatures : List EntryData
  equipment : List EntryData
  materials : List EntryData
  monsters : List EntryData
  treasure : List EntryData
deriving DecidableEq, Repr

/-- Abstract remote state: one response function per URL shape the
facade can hit.  `masterAll` is the body of `GET` on the master-mode
base URL, which the source treats as a flat list of monster entries
(lines 103, 105, 130, 133). -/
structure Net where
  primaryEntry : String → EntryData
  masterEntry : String → EntryData
  primaryCategory : String → List EntryData
  primaryAll : Dump
  masterAll : List EntryData

/-- One HTTP request issued by the facade, identified by endpoint and
path. -/
inductive Req where
  | primary : String → Req
  | master : String → Req
  | primaryBase : Req
  | masterBase : Req
deriving DecidableEq, Repr

/-- Exceptions the facade can raise: the two domain errors from
`exceptions` (`NoEntryError`, `NoCategoryError`), each carrying the
offending identifier, and Python's `AttributeError` for a missing
attribute. -/
inductive Err where
  | noEntry : String → Err
  | noCategory : String → Err
  | attributeError : String → Err
deriving DecidableEq, Repr

/-- Which `api` object an `entry_image` was constructed with. -/
inductive Endpoint where
  | primary
  | master
deriving DecidableEq, Repr

/-- `objects.entry_image(entry, api)`: the entry's metadata dict plus
the endpoint wrapper chosen to fetch its image bytes. -/
structure entry_image where
  entry : EntryData
  api : Endpoint
deriving DecidableEq, Repr

/-- The facade's state after `__init__` (lines 22-26): primary base
URL, default timeout, and the master-mode enable flag.  The master
`api` object exists exactly when `master_mode` is true. -/
structure compendium where
  base_url : String
  default_timeout : Option Nat
  master_mode : Bool
deriving DecidableEq, Repr

namespace compendium

/-- Path of the f-string `f"/entry/{entry}"`. -/
def entryPath (entry : String) : String := "/entry/" ++ entry

/-- Python truthiness on a timeout value: `None` and `0` are falsy. -/
def timeoutFalsy (t : Option Nat) : Bool :=
  match t with
  | none => true
  | some n => n == 0

/-- `if not timeout: timeout = self.default_timeout` (lines 46-47 and
the analogous prologue of every method). -/
def resolveTimeout (c : compendium) (t : Option Nat) : Option Nat :=
  if timeoutFalsy t then c.default_timeout else t

/-- `compendium.get_entry` (lines 28-74), returning the result (entry
dict or raised error) together with the requests issued, in order. -/
def get_entry (c : compendium) (net : Net) (entry : String)
    (timeout : Option Nat) (master_mode : Option Bool) :
    Except Err EntryData × List Req :=
  let _t := resolveTimeout c timeout
  match master_mode with
  | none =>
    let res := net.primaryEntry entry
    if res.isEmpty && c.master_mode then
      let res2 := net.masterEntry entry
      if !res2.isEmpty then
        (Except.ok res2, [Req.primary (entryPath entry), Req.master (entryPath entry)])
      else
        (Except.error (Err.noEntry entry),
          [Req.primary (entryPath entry), Req.master (entryPath entry)])
    else if !res.isEmpty then
      (Except.ok res, [Req.primary (entryPath entry)])
    else
      (Except.error (Err.noEntry entry), [Req.primary (entryPath entry)])
  | some true =>
    if c.master_mode then
      let res := net.masterEntry entry
      if !res.isEmpty then
        (Except.ok res, [Req.master (entryPath entry)])
      else
        (Except.error (Err.noEntry entry), [Req.master (entryPath entry)])
    else
      (Except.error (Err.attributeError "master_api"), [])
  | some false =>
    let res := net.primaryEntry entry
    if !res.isEmpty then
      (Except.ok res, [Req.primary (entryPath entry)])
    else
      (Except.error (Err.noEntry entry), [Req.primary (entryPath entry)])

/-- The fixed category list of line 99. -/
def validCategories : List String :=
  ["creatures", "equipment", "materials", "monsters", "treasure"]

/-- `compendium.get_category` (lines 76-107).  The final branch (line
107) only returns when `not master_mode`; with `master_mode=True` the
body falls through and Python returns `None`, hence the `Option` in the
result. -/
def get_category (c : compendium) (net : Net) (category : String)
    (timeout : Option Nat) (master_mode : Option Bool) :
    Except Err (Option (List EntryData)) × List Req :=
  let _t := resolveTimeout c timeout
  if category ∉ validCategories then
    (Except.error (Err.noCategory category), [])
  else if c.master_mode && category == "monsters" then
    match master_mode with
    | some true => (Except.ok (some net.masterAll), [Req.masterBase])
    | some false =>
      (Except.ok (some (net.primaryCategory "monsters")),
        [Req.primary "/category/monsters"])
    | none =>
      (Except.ok (some (net.primaryCategory "monsters" ++ net.masterAll)),
        [Req.primary "/category/monsters", Req.masterBase])
  else
    if master_mode ≠ some true then
      (Except.ok (some (net.primaryCategory category)),
        [Req.primary ("/category/" ++ category)])
    else
      (Except.ok none, [])

/-- `get_all`'s two possible successful shapes: the primary dict dump
(possibly with the master monsters appended in place) or the master
endpoint's flat list. -/
inductive AllResult where
  | dump : Dump → AllResult
  | monstersList : List EntryData → AllResult
deriving DecidableEq, Repr

/-- `compendium.get_all` (lines 109-135).  `res["monsters"] += ...`
(line 130) updates only the `monsters` key of the primary dump. -/
def get_all (c : compendium) (net : Net)
    (timeout : Option Nat) (master_mode : Option Bool) :
    Except Err (Option AllResult) × List Req :=
  let _t := resolveTimeout c timeout
  if c.master_mode && master_mode == none then
    let res := net.primaryAll
    (Except.ok (some (AllResult.dump
        { res with monsters := res.monsters ++ net.masterAll })),
      [Req.primaryBase, Req.masterBase])
  else if master_mode == some true then
    if c.master_mode then
      (Except.ok (some (AllResult.monstersList net.masterAll)), [Req.masterBase])
    else
      (Except.error (Err.attributeError "master_api"), [])
  else if master_mode == some false || !c.master_mode then
    (Except.ok (some (AllResult.dump net.primaryAll)), [Req.primaryBase])
  else
    (Except.ok none, [])

/-- `compendium._is_master_mode_entry` (lines 166-190): probe primary,
then master; touching `self.master_api` on a non-master instance is an
`AttributeError`. -/
def is_master_mode_entry (c : compendium) (net : Net) (entry : String)
    (timeout : Option Nat) : Except Err Bool × List Req :=
  let _t := resolveTimeout c timeout
  let res := net.primaryEntry entry
  if !res.isEmpty then
    (Except.ok false, [Req.primary (entryPath entry)])
  else if c.master_mode then
    let res2 := net.masterEntry entry
    if !res2.isEmpty then
      (Except.ok true, [Req.primary (entryPath entry), Req.master (entryPath entry)])
    else
      (Except.error (Err.noEntry entry),
        [Req.primary (entryPath entry), Req.master (entryPath entry)])
  else
    (Except.error (Err.attributeError "master_api"), [Req.primary (entryPath entry)])

/-- `compendium.get_image` (lines 137-164).  Line 159 calls the
resolution helper with its default timeout (the argument is not
forwarded); the resolved timeout is forwarded to `get_entry`.  In
`entry_image(self.get_entry(...), self.master_api)` Python evaluates
the `get_entry` argument before the attribute access, so a `get_entry`
exception surfaces first. -/
def get_image (c : compendium) (net : Net) (entry : String)
    (timeout : Option Nat) (master_mode : Option Bool) :
    Except Err entry_image × List Req :=
  let t := resolveTimeout c timeout
  match master_mode with
  | none =>
    match is_master_mode_entry c net entry none with
    | (Except.error e, log) => (Except.error e, log)
    | (Except.ok b, log) =>
      match get_entry c net entry t none with
      | (Except.error e, log2) => (Except.error e, log ++ log2)
      | (Except.ok d, log2) =>
        (Except.ok ⟨d, if b then Endpoint.master else Endpoint.primary⟩, log ++ log2)
  | some true =>
    match get_entry c net entry t (some true) with
    | (Except.error e, log) => (Except.error e, log)
    | (Except.ok d, log) =>
      if c.master_mode then
        (Except.ok ⟨d, Endpoint.master⟩, log)
      else
        (Except.error (Err.attributeError "master_api"), log)
  | some false =>
    match get_entry c net entry t (some false) with
    | (Except.error e, log) => (Except.error e, log)
    | (Except.ok d, log) => (Except.ok ⟨d, Endpoint.primary⟩, log)

/-- A call to one of the four public methods. -/
inductive Op where
  | entryOp : String → Option Nat → Option Bool → Op
  | categoryOp : String → Option Nat → Option Bool → Op
  | allOp : Option Nat → Option Bool → Op
  | imageOp : String → Option Nat → Option Bool → Op
deriving DecidableEq, Repr

/-- The value a public method call produces (or the error it raises). -/
inductive OpOutput where
  | entryOut : Except Err EntryData → OpOutput
  | categoryOut : Except Err (Option (List EntryData)) → OpOutput
  | allOut : Except Err (Option AllResult) → OpOutput
  | imageOut : Except Err entry_image → OpOutput
deriving Repr

/-- Dispatch of a public method call, threading the facade's state: the
output and request trace, plus the state of the object after the call.
None of the method bodies (lines 28-164) assigns to any `self`
attribute, so the resulting state is the incoming one. -/
def runOp (c : compendium) (net : Net) (op : Op) :
    (OpOutput × List Req) × compendium :=
  match op with
  | Op.entryOp e t m =>
    let r := get_entry c net e t m
    ((OpOutput.entryOut r.1, r.2), c)
  | Op.categoryOp cat t m =>
    let r := get_category c net cat t m
    ((OpOutput.categoryOut r.1, r.2), c)
  | Op.allOp t m =>
    let r := get_all c net t m
    ((OpOutput.allOut r.1, r.2), c)
  | Op.imageOp e t m =>
    let r := get_image c net e t m
    ((OpOutput.imageOut r.1, r.2), c)

end compendium

/-- Equality of `Except` results is decidable when both components are,
so concrete runs of the facade can be checked by `decide`. -/
instance {ε α : Type} [DecidableEq ε] [DecidableEq α] : DecidableEq (Except ε α) := fun x y =>
  match x, y with
  | Except.ok a, Except.ok b =>
    if h : a = b then isTrue (by rw [h]) else
      isFalse (by intro hh; injection hh; contradiction)
  | Except.ok _, Except.error _ => isFalse (by intro hh; exact Except.noConfusion hh)
  | Except.error _, Except.ok _ => isFalse (by intro hh; exact Except.noConfusion hh)
  | Except.error e, Except.error f =>
    if h : e = f then isTrue (by rw [h]) else
      isFalse (by intro hh; injection hh; contradiction)

/-! Concrete sample data for witnesses and counterexamples. -/

/-- Sample entry held by the primary endpoint. -/
def chuchu : EntryData := [("name", "chuchu"), ("id", "97")]

/-- Sample entry held only by the master-mode endpoint. -/
def bokoblin : EntryData := [("name", "golden bokoblin")]

/-- Sample equipment entry. -/
def lynel : EntryData := [("name", "savage lynel sword")]

/-- Sample primary full dump. -/
def dumpA : Dump := ⟨[], [lynel], [], [chuchu], []⟩

/-- Sample remote state: the primary endpoint knows `chuchu` (and the
`dumpA` dump); the master-mode endpoint knows only `golden-bokoblin`
and serves `[bokoblin]` as its base-URL dump. -/
def netFull : Net :=
  { primaryEntry := fun e => if e == "chuchu" then chuchu else []
    masterEntry := fun e => if e == "golden-bokoblin" then bokoblin else []
    primaryCategory := fun c =>
      if c == "monsters" then [chuchu] else if c == "equipment" then [lynel] else []
    primaryAll := dumpA
    masterAll := [bokoblin] }

/-- A facade constructed with `master_mode=True` (line 26 creates
`self.master_api`). -/
def cMaster : compendium :=
  ⟨"https://botw-compendium.herokuapp.com/api/v2", none, true⟩

/-- A facade constructed with the default `master_mode=False`, so
`self.master_api` is never created. -/
def cPlain : compendium :=
  ⟨"https://botw-compendium.herokuapp.com/api/v2", none, false⟩

/-! Claim theorems. -/

/-- Claim C1: with `master_mode` unset, `get_entry` queries the primary
endpoint first; a non-empty primary result is returned; if the primary
result is empty and the instance has master mode enabled, the master
endpoint is queried and its result returned when non-empty; when both
results are empty, `NoEntryError` carrying the requested identifier is
raised. -/
theorem C1_get_entry_none_fallback (c : compendium) (net : Net) (e : String)
    (t : Option Nat) (hm : c.master_mode = true) :
    (compendium.get_entry c net e t none).2.head?
        = some (Req.primary (compendium.entryPath e)) ∧
    (net.primaryEntry e ≠ [] →
      compendium.get_entry c net e t none
        = (Except.ok (net.primaryEntry e), [Req.primary (compendium.entryPath e)])) ∧
    (net.primaryEntry e = [] → net.masterEntry e ≠ [] →
      compendium.get_entry c net e t none
        = (Except.ok (net.masterEntry e),
           [Req.primary (compendium.entryPath e), Req.master (compendium.entryPath e)])) ∧
    (net.primaryEntry e = [] → net.masterEntry e = [] →
      compendium.get_entry c net e t none
        = (Except.error (Err.noEntry e),
           [Req.primary (compendium.entryPath e), Req.master (compendium.entryPath e)])) := by
  rcases hp : net.primaryEntry e with _ | ⟨a, l⟩ <;>
    rcases hq : net.masterEntry e with _ | ⟨b, m⟩ <;>
    simp [compendium.get_entry, hm, hp, hq]

/-- Claim C1 witness: on the sample master-enabled facade, an entry
known only to the master endpoint is fetched through the fallback. -/
theorem C1_witness :
    compendium.get_entry cMaster netFull "golden-bokoblin" none none
      = (Except.ok bokoblin,
         [Req.primary (compendium.entryPath "golden-bokoblin"),
          Req.master (compendium.entryPath "golden-bokoblin")]) :=
  (C1_get_entry_none_fallback cMaster netFull "golden-bokoblin" none rfl).2.2.1
    rfl (by decide)

/-- Claim C2: on a master-enabled facade, `get_category("monsters")`
with `master_mode` unset returns the primary monsters list followed by
the master list (length = sum of lengths); `master_mode=True` returns
only the master data; `master_mode=False` only the primary data. -/
theorem C2_get_category_monsters (c : compendium) (net : Net) (t : Option Nat)
    (hm : c.master_mode = true) :
    (compendium.get_category c net "monsters" t none).1
        = Except.ok (some (net.primaryCategory "monsters" ++ net.masterAll)) ∧
    (∀ l, (compendium.get_category c net "monsters" t none).1 = Except.ok (some l) →
        l.length = (net.primaryCategory "monsters").length + net.masterAll.length) ∧
    (compendium.get_category c net "monsters" t (some true)).1
        = Except.ok (some net.masterAll) ∧
    (compendium.get_category c net "monsters" t (some false)).1
        = Except.ok (some (net.primaryCategory "monsters")) := by
  refine ⟨?_, ?_, ?_, ?_⟩ <;>
    simp [compendium.get_category, compendium.validCategories, hm]

/-- Claim C2 witness: merged monsters list on the sample data. -/
theorem C2_witness :
    (compendium.get_category cMaster netFull "monsters" none none).1
      = Except.ok (some [chuchu, bokoblin]) :=
  (C2_get_category_monsters cMaster netFull none rfl).1

/-- Claim C3: on a master-enabled facade, `get_all` with `master_mode`
unset returns the primary dump with the master list appended to its
"monsters" key and every other category unchanged; explicit `True`
returns exactly the master dump and explicit `False` exactly the
primary dump. -/
theorem C3_get_all (c : compendium) (net : Net) (t : Option Nat)
    (hm : c.master_mode = true) :
    (compendium.get_all c net t none).1
        = Except.ok (some (compendium.AllResult.dump
            { net.primaryAll with
                monsters := net.primaryAll.monsters ++ net.masterAll })) ∧
    (∀ d, (compendium.get_all c net t none).1
            = Except.ok (some (compendium.AllResult.dump d)) →
        d.monsters.length = net.primaryAll.monsters.length + net.masterAll.length ∧
        d.creatures = net.primaryAll.creatures ∧
        d.equipment = net.primaryAll.equipment ∧
        d.materials = net.primaryAll.materials ∧
        d.treasure = net.primaryAll.treasure) ∧
    (compendium.get_all c net t (some true)).1
        = Except.ok (some (compendium.AllResult.monstersList net.masterAll)) ∧
    (compendium.get_all c net t (some false)).1
        = Except.ok (some (compendium.AllResult.dump net.primaryAll)) := by
  refine ⟨?_, ?_, ?_, ?_⟩ <;> simp [compendium.get_all, hm]

/-- Claim C3 witness: merged dump on the sample data. -/
theorem C3_witness :
    (compendium.get_all cMaster netFull none none).1
      = Except.ok (some (compendium.AllResult.dump
          ⟨[], [lynel], [], [chuchu, bokoblin], []⟩)) :=
  (C3_get_all cMaster netFull none rfl).1

/-- Claim C4: for any string outside the fixed category set,
`get_category` raises `NoCategoryError` carrying exactly that string,
for every timeout and `master_mode` argument, having issued no
request. -/
theorem C4_get_category_unknown (c : compendium) (net : Net) (cat : String)
    (t : Option Nat) (mm : Option Bool) (h : cat ∉ compendium.validCategories) :
    compendium.get_category c net cat t mm
      = (Except.error (Err.noCategory cat), []) := by
  simp [compendium.get_category, h]

/-- Claim C4 witness: "potions" is not a category. -/
theorem C4_witness :
    "potions" ∉ compendium.validCategories ∧
    compendium.get_category cMaster netFull "potions" none (some true)
      = (Except.error (Err.noCategory "potions"), []) :=
  ⟨by decide, C4_get_category_unknown cMaster netFull "potions" none (some true) (by decide)⟩

/-- Claim C5: on a master-enabled facade, `get_entry` with
`master_mode=True` issues exactly one request, to the master endpoint;
it raises `NoEntryError` when that result is empty, returns it when
non-empty, and never queries the primary endpoint. -/
theorem C5_get_entry_true_master_only (c : compendium) (net : Net) (e : String)
    (t : Option Nat) (hm : c.master_mode = true) :
    (compendium.get_entry c net e t (some true)).2
        = [Req.master (compendium.entryPath e)] ∧
    (net.masterEntry e = [] →
      (compendium.get_entry c net e t (some true)).1 = Except.error (Err.noEntry e)) ∧
    (net.masterEntry e ≠ [] →
      (compendium.get_entry c net e t (some true)).1 = Except.ok (net.masterEntry e)) ∧
    (∀ p, Req.primary p ∉ (compendium.get_entry c net e t (some true)).2) := by
  rcases hq : net.masterEntry e with _ | ⟨b, m⟩ <;>
    simp [compendium.get_entry, hm, hq]

/-- Claim C5 witness: an identifier the master endpoint does not have
yields `NoEntryError`, with no fallback request to primary. -/
theorem C5_witness :
    (compendium.get_entry cMaster netFull "chuchu" none (some true)).1
      = Except.error (Err.noEntry "chuchu") :=
  (C5_get_entry_true_master_only cMaster netFull "chuchu" none rfl).2.1 rfl

/-- Claim C6: an identifier absent from both endpoints makes
`get_entry` raise `NoEntryError` carrying it, whatever the
`master_mode` flag. -/
theorem C6_get_entry_absent (c : compendium) (net : Net) (e : String)
    (t : Option Nat) (mm : Option Bool) (hm : c.master_mode = true)
    (hp : net.primaryEntry e = []) (hq : net.masterEntry e = []) :
    (compendium.get_entry c net e t mm).1 = Except.error (Err.noEntry e) := by
  rcases mm with _ | b
  · simp [compendium.get_entry, hm, hp, hq]
  · rcases b <;> simp [compendium.get_entry, hm, hp, hq]

/-- Claim C6 witness: "octorok" is known to neither endpoint; all three
flag values raise `NoEntryError`. -/
theorem C6_witness :
    (compendium.get_entry cMaster netFull "octorok" none none).1
        = Except.error (Err.noEntry "octorok") ∧
    (compendium.get_entry cMaster netFull "octorok" none (some true)).1
        = Except.error (Err.noEntry "octorok") ∧
    (compendium.get_entry cMaster netFull "octorok" none (some false)).1
        = Except.error (Err.noEntry "octorok") :=
  ⟨C6_get_entry_absent cMaster netFull "octorok" none none rfl rfl rfl,
   C6_get_entry_absent cMaster netFull "octorok" none (some true) rfl rfl rfl,
   C6_get_entry_absent cMaster netFull "octorok" none (some false) rfl rfl rfl⟩

/-- Claim C7 counterexample: on the sample master-enabled facade,
`get_category("equipment", master_mode=True)` falls off the end of the
function body — it issues no request and returns Python `None` — rather
than querying the primary endpoint and returning its (non-empty)
equipment list.  (Line 107 only returns when `not master_mode`.) -/
theorem C7_counterexample :
    compendium.get_category cMaster netFull "equipment" none (some true)
        = (Except.ok none, []) ∧
    netFull.primaryCategory "equipment" = [lynel] ∧
    (compendium.get_category cMaster netFull "equipment" none (some true)).1
        ≠ Except.ok (some (netFull.primaryCategory "equipment")) ∧
    (compendium.get_category cMaster netFull "equipment" none (some true)).2 = [] :=
  ⟨by decide, by decide, by decide, by decide⟩

/-- Claim C7 amended: for a valid category other than "monsters",
`get_category` queries the primary endpoint and returns its list when
`master_mode` is unset or `False`; but with `master_mode=True` it
issues no request and returns `None` (the function body falls
through). -/
theorem C7_get_category_other (c : compendium) (net : Net) (cat : String)
    (t : Option Nat) (hv : cat ∈ compendium.validCategories)
    (hne : cat ≠ "monsters") :
    (∀ mm, mm ≠ some true →
      compendium.get_category c net cat t mm
        = (Except.ok (some (net.primaryCategory cat)),
           [Req.primary ("/category/" ++ cat)])) ∧
    compendium.get_category c net cat t (some true) = (Except.ok none, []) := by
  constructor
  · rintro (_ | b) hmm
    · simp [compendium.get_category, hv, hne]
    · rcases b
      · simp [compendium.get_category, hv, hne]
      · simp at hmm
  · simp [compendium.get_category, hv, hne]

/-- Claim C7 witness: both amended behaviors on the sample facade. -/
theorem C7_witness :
    compendium.get_category cMaster netFull "equipment" none none
        = (Except.ok (some [lynel]), [Req.primary "/category/equipment"]) ∧
    compendium.get_category cMaster netFull "equipment" none (some false)
        = (Except.ok (some [lynel]), [Req.primary "/category/equipment"]) ∧
    compendium.get_category cMaster netFull "equipment" none (some true)
        = (Except.ok none, []) :=
  ⟨(C7_get_category_other cMaster netFull "equipment" none (by decide) (by decide)).1
      none (by decide),
   (C7_get_category_other cMaster netFull "equipment" none (by decide) (by decide)).1
      (some false) (by decide),
   (C7_get_category_other cMaster netFull "equipment" none (by decide) (by decide)).2⟩

/-- Claim C8: on a master-enabled facade, for an entry whose primary
probe is empty and whose master probe is non-empty, `get_image` with
`master_mode` unset returns an `entry_image` bound to the master
endpoint; and the resolution helper probes primary first, answers
`False` when the primary probe succeeds, `True` when only the master
probe succeeds, and raises `NoEntryError` when both are empty. -/
theorem C8_get_image_master_entry (c : compendium) (net : Net) (e : String)
    (t : Option Nat) (hm : c.master_mode = true)
    (hp : net.primaryEntry e = []) (hq : net.masterEntry e ≠ []) :
    (compendium.get_image c net e t none).1
        = Except.ok ⟨net.masterEntry e, Endpoint.master⟩ ∧
    (∀ x, net.primaryEntry x ≠ [] →
        compendium.is_master_mode_entry c net x t
          = (Except.ok false, [Req.primary (compendium.entryPath x)])) ∧
    (∀ x, net.primaryEntry x = [] → net.masterEntry x ≠ [] →
        (compendium.is_master_mode_entry c net x t).1 = Except.ok true) ∧
    (∀ x, net.primaryEntry x = [] → net.masterEntry x = [] →
        (compendium.is_master_mode_entry c net x t).1
          = Except.error (Err.noEntry x)) ∧
    (∀ x, (compendium.is_master_mode_entry c net x t).2.head?
        = some (Req.primary (compendium.entryPath x))) := by
  refine ⟨?_, ?_, ?_, ?_, ?_⟩
  · rcases hq2 : net.masterEntry e with _ | ⟨b, m⟩
    · exact absurd hq2 hq
    · simp [compendium.get_image, compendium.is_master_mode_entry,
        compendium.get_entry, hm, hp, hq2]
  · intro x hx
    rcases hx2 : net.primaryEntry x with _ | ⟨a, l⟩
    · exact absurd hx2 hx
    · simp [compendium.is_master_mode_entry, hx2]
  · intro x hx hy
    rcases hy2 : net.masterEntry x with _ | ⟨b, m⟩
    · exact absurd hy2 hy
    · simp [compendium.is_master_mode_entry, hm, hx, hy2]
  · intro x hx hy
    simp [compendium.is_master_mode_entry, hm, hx, hy]
  · intro x
    rcases hx2 : net.primaryEntry x with _ | ⟨a, l⟩ <;>
      rcases hy2 : net.masterEntry x with _ | ⟨b, m⟩ <;>
      simp [compendium.is_master_mode_entry, hm, hx2, hy2]

/-- Claim C8 witness: the sample master-only entry resolves to an image
bound to the master endpoint. -/
theorem C8_witness :
    (compendium.get_image cMaster netFull "golden-bokoblin" none none).1
      = Except.ok ⟨bokoblin, Endpoint.master⟩ :=
  (C8_get_image_master_entry cMaster netFull "golden-bokoblin" none rfl rfl
    (by decide)).1

/-- Claim C9: every public method call leaves the facade's state (base
URL, default timeout, master-mode flag, and with it the set of endpoint
objects) exactly as it was, whether the call returns a value or raises:
the method bodies assign to no attribute of `self`. -/
theorem C9_runOp_preserves_state (c : compendium) (net : Net)
    (op : compendium.Op) : (compendium.runOp c net op).2 = c := by
  cases op <;> rfl

/-- Claim C10: on a facade constructed with master mode disabled,
`self.master_api` was never created (line 26), so
`get_entry(..., master_mode=True)` raises `AttributeError` for
`master_api` — not a domain error — and issues no request. -/
theorem C10_get_entry_true_no_master (c : compendium) (net : Net) (e : String)
    (t : Option Nat) (hm : c.master_mode = false) :
    compendium.get_entry c net e t (some true)
        = (Except.error (Err.attributeError "master_api"), []) ∧
    ∀ s, (compendium.get_entry c net e t (some true)).1
        ≠ Except.error (Err.noEntry s) := by
  simp [compendium.get_entry, hm]

/-- Claim C10 witness: the default-constructed facade raises
`AttributeError` even for an entry the primary endpoint has. -/
theorem C10_witness :
    compendium.get_entry cPlain netFull "chuchu" none (some true)
      = (Except.error (Err.attributeError "master_api"), []) :=
  (C10_get_entry_true_no_master cPlain netFull "chuchu" none rfl).1
